import Mathlib

/-!
Verification of the broadcast/replay stream primitive in
`crates/turbo-tasks-bytes/src/stream.rs`.

The shared state machine `StreamState`, its mutating operations `push` and
`close`, the handle-level equality and (de)serialization, and the reader's
`poll_next` protocol are embedded below.  Rust specifics are modelled as
follows: a `Waker` is an abstract identifier (`Nat`); a panic is `none` in an
`Option` result; the external producer of an `OpenStream` store is a script of
successive poll outcomes (`SourcePoll`), consumed one entry per pull; a
reader's `poll_next` is a function from its cursor, the shared state and the
caller's waker to the poll result, the new cursor and the new shared state.
-/

namespace Turbo

/-- A waker is opaque to the stream code; we model it by an identifier. -/
abbrev Waker := Nat

/-- One outcome of polling the external source stream wrapped by an
`OpenStream` store: it yields a value, reports not-ready, or is exhausted. -/
inductive SourcePoll (T : Type) where
  | ready (v : T)
  | pending
  | done
deriving DecidableEq

/-- The shared stream state (`StreamState<T>` in the source): writable with
buffered data and registered wakers, lazily pulling from a source stream with
a cache, or closed with a frozen data sequence. -/
inductive StreamState (T : Type) where
  | openWritable (data : List T) (wakers : List Waker)
  | openStream (source : List (SourcePoll T)) (data : List T)
  | closed (data : List T)
deriving DecidableEq

variable {T : Type}

/-- The buffered data sequence of a state, in any variant. -/
def dataOf : StreamState T → List T
  | StreamState.openWritable d _ => d
  | StreamState.openStream _ d => d
  | StreamState.closed d => d

/-- `Stream::new_closed`: construct a store already closed over `data`. -/
def Stream.new_closed (data : List T) : StreamState T :=
  StreamState.closed data

/-- `Stream::new_open`: construct a writable store pre-seeded with `data` and
no registered wakers. -/
def Stream.new_open (data : List T) : StreamState T :=
  StreamState.openWritable data []

/-- `Stream::from_stream`: wrap an external producer, starting with an empty
cache. -/
def Stream.from_stream (source : List (SourcePoll T)) : StreamState T :=
  StreamState.openStream source []

/-- `impl Default for StreamState`: an empty writable state. -/
def StreamState.default : StreamState T :=
  StreamState.openWritable [] []

/-- `impl Default for Stream`: a fresh store holding `StreamState::default()`. -/
def Stream.default : StreamState T :=
  StreamState.default

/-- Whether the state is the `OpenWritable` variant. -/
def StreamState.isOpenWritable : StreamState T → Bool
  | StreamState.openWritable _ _ => true
  | _ => false

/-- `StreamState::push`: append `value` to an open writable store and wake
(drain) every registered waker.  On any other variant the source panics,
modelled as `none`.  The second component is the list of wakers woken. -/
def StreamState.push : StreamState T → T → Option (StreamState T × List Waker)
  | StreamState.openWritable data wakers, value =>
      some (StreamState.openWritable (data ++ [value]) [], wakers)
  | _, _ => none

/-- `StreamState::close`: optionally append a final `value`, freeze the data,
transition to `Closed` and wake every registered waker.  On any other variant
the source panics, modelled as `none`. -/
def StreamState.close : StreamState T → Option T → Option (StreamState T × List Waker)
  | StreamState.openWritable data wakers, value =>
      some (StreamState.closed (data ++ value.toList), wakers)
  | _, _ => none

/-- `impl PartialEq for StreamState`: two states compare equal exactly when
both are `Closed` with element-wise-equal data. -/
def StreamState.beq [DecidableEq T] : StreamState T → StreamState T → Bool
  | StreamState.closed a, StreamState.closed b => decide (a = b)
  | _, _ => false

/-- `impl PartialEq for Stream`: pointer equality of the backing stores
short-circuits; otherwise both states are compared with `StreamState.beq`.
`sameStore` stands for `Arc::ptr_eq` on the two handles. -/
def streamEq [DecidableEq T] (sameStore : Bool) (a b : StreamState T) : Bool :=
  sameStore || StreamState.beq a b

/-- `impl Serialize for StreamState`: a closed store serializes as its plain
data sequence; serializing either open variant fails. -/
def StreamState.serialize : StreamState T → Except String (List T)
  | StreamState.closed data => Except.ok data
  | _ => Except.error "cannot serialize open stream"

/-- `impl Deserialize for StreamState`: decoding a sequence always yields a
closed store. -/
def StreamState.deserialize (data : List T) : StreamState T :=
  StreamState.closed data

/-- `impl Deserialize for Stream`: decode a sequence and wrap it with
`Stream::new_closed`. -/
def Stream.deserialize (data : List T) : StreamState T :=
  Stream.new_closed data

/-- Result of one `poll_next` call, mirroring `Poll<A>`. -/
inductive Poll (A : Type) where
  | ready (a : A)
  | pending
deriving DecidableEq

/-- Polling the wrapped source stream consumes the next scripted outcome; an
empty script is an exhausted source. -/
def pullSource : List (SourcePoll T) → SourcePoll T × List (SourcePoll T)
  | [] => (SourcePoll.done, [])
  | p :: rest => (p, rest)

/-- `StreamRead::poll_next` for a reader at cursor `index` over shared state
`s`, with the caller's waker `w`.  Returns the poll result, the reader's new
cursor and the new shared state.  This is a direct transcription of the
source: note that the cursor advances only in the two `data.get(index)` hit
arms, and that an exhausted source falls into the catch-all `Poll::Pending`
arm without closing the store. -/
def pollNext (index : Nat) (s : StreamState T) (w : Waker) :
    Poll (Option T) × Nat × StreamState T :=
  match s with
  | StreamState.openWritable data wakers =>
      match data[index]? with
      | some v => (Poll.ready (some v), index + 1, StreamState.openWritable data wakers)
      | none => (Poll.pending, index, StreamState.openWritable data (wakers ++ [w]))
  | StreamState.openStream source data =>
      match data[index]? with
      | some v => (Poll.ready (some v), index + 1, StreamState.openStream source data)
      | none =>
          match pullSource source with
          | (SourcePoll.ready v, rest) =>
              (Poll.ready (some v), index, StreamState.openStream rest (data ++ [v]))
          | (SourcePoll.pending, rest) => (Poll.pending, index, StreamState.openStream rest data)
          | (SourcePoll.done, rest) => (Poll.pending, index, StreamState.openStream rest data)
  | StreamState.closed data => (Poll.ready data[index]?, index, StreamState.closed data)

theorem get_of_length_le {l : List T} {i : Nat} (h : l.length ≤ i) : l[i]? = none := by
  simp [List.getElem?_eq_none, h]

theorem get_append_length (l : List T) (v : T) : (l ++ [v])[l.length]? = some v := by
  simp

/-- C1: the claim asserts exactly-once delivery on the lazy-pull path, but the
fresh-pull arm of `poll_next` returns the pulled value without advancing the
reader's cursor.  Concretely, over a producer scripted to yield "x" then "y",
the first poll delivers "x" and leaves the cursor at 0, and the same reader's
second poll at cursor 0 hits the cache and delivers "x" again: the element is
observed twice by one reader. -/
theorem C1_lazy_pull_duplicates :
    pollNext 0 (Stream.from_stream [SourcePoll.ready "x", SourcePoll.ready "y"]) 0
      = (Poll.ready (some "x"), 0, StreamState.openStream [SourcePoll.ready "y"] ["x"])
    ∧ pollNext 0 (StreamState.openStream [SourcePoll.ready "y"] ["x"]) 0
      = (Poll.ready (some "x"), 1, StreamState.openStream [SourcePoll.ready "y"] ["x"]) :=
  ⟨rfl, rfl⟩

/-- C2: the claim asserts that a pull observing producer exhaustion closes th
store and returns end-of-sequence, but exhaustion falls into the catch-all
`Poll::Pending` arm of `poll_next`.  Concretely, with the cache holding
"x", "y" and the producer exhausted, a poll at cursor 2 returns a pending
indication — not `ready none` — and the state stays `OpenStream` rather than
becoming `Closed` over the accumulated cache. -/
theorem C2_exhaustion_not_closed :
    pollNext 2 (StreamState.openStream ([] : List (SourcePoll String)) ["x", "y"]) 0
      = (Poll.pending, 2, StreamState.openStream [] ["x", "y"])
    ∧ (Poll.pending : Poll (Option String)) ≠ Poll.ready none
    ∧ (StreamState.openStream ([] : List (SourcePoll String)) ["x", "y"])
        ≠ StreamState.closed ["x", "y"] :=
  ⟨rfl, by decide, by decide⟩

/-- C3: the claim asserts that every delivered value advances the reader's
cursor by exactly 1 and hence that a closed store replays its sequence exactly
once per reader, but the `Closed` arm of `poll_next` returns
`data.get(index)` without ever advancing the cursor.  Concretely, on the
closed store over `[1, 2]`, a poll at cursor 0 delivers 1 with the cursor
still 0 (so the next poll delivers 1 again, forever), and likewise at
cursor 1. -/
theorem C3_closed_poll_no_advance :
    pollNext 0 (Stream.new_closed [1, 2]) 0
      = (Poll.ready (some 1), 0, StreamState.closed [1, 2])
    ∧ pollNext 1 (StreamState.closed ([1, 2] : List Nat)) 0
      = (Poll.ready (some 2), 1, StreamState.closed [1, 2]) :=
  ⟨rfl, rfl⟩

/-- C4: `push` and `close` succeed exactly on the `OpenWritable` variant and
panic (modelled as `none`) on every other variant; on an `OpenWritable` state
`push` appends the value (draining the wakers) and `close` freezes the data
with the optional final value appended. -/
theorem C4_fail_fast :
    (∀ (s : StreamState T) (v : T),
      (StreamState.push s v).isSome = StreamState.isOpenWritable s)
    ∧ (∀ (s : StreamState T) (v : Option T),
      (StreamState.close s v).isSome = StreamState.isOpenWritable s)
    ∧ (∀ (d : List T) (wk : List Waker) (v : T),
      StreamState.push (StreamState.openWritable d wk) v
        = some (StreamState.openWritable (d ++ [v]) [], wk))
    ∧ (∀ (d : List T) (wk : List Waker) (v : Option T),
      StreamState.close (StreamState.openWritable d wk) v
        = some (StreamState.closed (d ++ v.toList), wk)) := by
  refine ⟨fun s v => ?_, fun s v => ?_, fun d wk v => rfl, fun d wk v => rfl⟩
  · cases s <;> rfl
  · cases s <;> rfl

/-- C5: closing an `OpenWritable` store with a final value yields the same
resulting state as pushing that value and then closing with no value: both end
`Closed` over the prior data followed by the value. -/
theorem C5_close_final_equiv (d : List T) (wk : List Waker) (v : T) :
    Option.map Prod.fst (StreamState.close (StreamState.openWritable d wk) (some v))
      = Option.map Prod.fst
          (Option.bind (StreamState.push (StreamState.openWritable d wk) v)
            (fun p => StreamState.close p.1 none))
    ∧ Option.map Prod.fst (StreamState.close (StreamState.openWritable d wk) (some v))
      = some (StreamState.closed (d ++ [v])) := by
  constructor
  · simp [StreamState.close, StreamState.push]
  · simp [StreamState.close]

/-- C10: the default-constructed state is `OpenWritable` with empty data and
no wakers, equal to `Stream::new_open` on the empty sequence, and every
operation — push, close, poll, equality, serialization — agrees on the two. -/
theorem C10_default_is_new_open [DecidableEq T] :
    (StreamState.default : StreamState T) = Stream.new_open []
    ∧ (Stream.default : StreamState T) = Stream.new_open []
    ∧ (StreamState.default : StreamState T) = StreamState.openWritable [] []
    ∧ (∀ v : T, StreamState.push StreamState.default v = StreamState.push (Stream.new_open []) v)
    ∧ (∀ v : Option T,
      StreamState.close StreamState.default v = StreamState.close (Stream.new_open []) v)
    ∧ (∀ (i : Nat) (w : Waker),
      pollNext i (StreamState.default : StreamState T) w = pollNext i (Stream.new_open []) w)
    ∧ (∀ (b : StreamState T) (same : Bool),
      streamEq same StreamState.default b = streamEq same (Stream.new_open []) b)
    ∧ StreamState.serialize (StreamState.default : StreamState T)
        = StreamState.serialize (Stream.new_open []) :=
  ⟨rfl, rfl, rfl, fun _ => rfl, fun _ => rfl, fun _ _ => rfl, fun _ _ => rfl, rfl⟩

/-- C6: a closed store serializes as exactly its plain element sequence;
deserialization always yields a closed store, so a serialize/deserialize
round trip on a closed store is the identity; serializing either open variant
fails with an explicit error. -/
theorem C6_serde_roundtrip :
    (∀ d : List T, StreamState.serialize (StreamState.closed d) = Except.ok d)
    ∧ (∀ d : List T, StreamState.deserialize d = StreamState.closed d)
    ∧ (∀ d : List T,
      Except.map StreamState.deserialize (StreamState.serialize (StreamState.closed d))
        = Except.ok (StreamState.closed d))
    ∧ (∀ (d : List T) (wk : List Waker),
      StreamState.serialize (StreamState.openWritable d wk)
        = Except.error "cannot serialize open stream")
    ∧ (∀ (src : List (SourcePoll T)) (d : List T),
      StreamState.serialize (StreamState.openStream src d)
        = Except.error "cannot serialize open stream")
    ∧ (∀ d : List T, Stream.deserialize d = StreamState.closed d) :=
  ⟨fun _ => rfl, fun _ => rfl, fun _ => rfl, fun _ _ => rfl, fun _ _ => rfl, fun _ => rfl⟩

/-- C7: two handles compare equal exactly when they share the same backing
store (`sameStore`, in any state) or both states are `Closed` with equal data;
in particular two distinct stores in an open variant compare unequal even with
identical buffered contents. -/
theorem C7_handle_equality [DecidableEq T] :
    (∀ a b : StreamState T, streamEq true a b = true)
    ∧ (∀ (same : Bool) (a b : StreamState T),
      streamEq same a b = true
        ↔ same = true ∨ ∃ d, a = StreamState.closed d ∧ b = StreamState.closed d)
    ∧ (∀ (d : List T) (wk : List Waker) (sc : List (SourcePoll T)) (e : List T),
      streamEq false (StreamState.openWritable d wk) (StreamState.openWritable d wk) = false
        ∧ streamEq false (StreamState.openStream sc d) (StreamState.openStream sc d) = false
        ∧ streamEq false (StreamState.openWritable d wk) (StreamState.closed e) = false) := by
  refine ⟨fun a b => rfl, fun same a b => ?_, fun d wk sc e => ⟨rfl, rfl, rfl⟩⟩
  cases same
  · simp only [streamEq, Bool.false_or, false_or]
    cases a <;> cases b <;> simp [StreamState.beq, eq_comm]
  · simp [streamEq]

/-- C8: on an `OpenWritable` store, a poll at a cursor at or beyond the
buffered length returns a pending indication and appends the caller's waker to
the pending set; a subsequent `push v` wakes exactly the registered wakers and
clears the set; and a poll at cursor `data.length` (the cursor of a reader
that had consumed the whole buffer — reader cursors never exceed the buffered
length) then delivers `v` and advances the cursor by 1. -/
theorem C8_suspend_then_wake (data : List T) (wakers : List Waker) (i : Nat)
    (h : data.length ≤ i) (w w2 : Waker) (v : T) :
    pollNext i (StreamState.openWritable data wakers) w
      = (Poll.pending, i, StreamState.openWritable data (wakers ++ [w]))
    ∧ StreamState.push (StreamState.openWritable data (wakers ++ [w])) v
      = some (StreamState.openWritable (data ++ [v]) [], wakers ++ [w])
    ∧ pollNext data.length (StreamState.openWritable (data ++ [v]) []) w2
      = (Poll.ready (some v), data.length + 1, StreamState.openWritable (data ++ [v]) []) := by
  refine ⟨?_, rfl, ?_⟩
  · simp [pollNext, get_of_length_le h]
  · simp [pollNext, get_append_length]

/-- Witness for C8 at the spec's own example: an empty open store polled at
cursor 0 suspends, a push of 10 wakes the registered waker, and the next poll
delivers 10. -/
theorem C8_witness :
    ([] : List Nat).length ≤ 0
    ∧ (pollNext 0 (StreamState.openWritable ([] : List Nat) []) 5
        = (Poll.pending, 0, StreamState.openWritable [] [5])
      ∧ StreamState.push (StreamState.openWritable ([] : List Nat) [5]) 10
        = some (StreamState.openWritable [10] [], [5])
      ∧ pollNext 0 (StreamState.openWritable ([10] : List Nat) []) 6
        = (Poll.ready (some 10), 1, StreamState.openWritable [10] [])) :=
  ⟨Nat.le_refl 0, C8_suspend_then_wake [] [] 0 (Nat.le_refl 0) 5 6 10⟩

/-- C9: every operation preserves the existing data sequence as a prefix —
`push` and `close` on a writable store only append, a reader's poll never
shrinks or reorders the data in any state — and a `Closed` store is terminal:
polls leave it unchanged and `push`/`close` panic (`none`) rather than return
normally. -/
theorem C9_append_only_closed_terminal :
    (∀ (d : List T) (wk : List Waker) (v : T),
      StreamState.push (StreamState.openWritable d wk) v
          = some (StreamState.openWritable (d ++ [v]) [], wk)
        ∧ d <+: d ++ [v])
    ∧ (∀ (d : List T) (wk : List Waker) (v : Option T),
      StreamState.close (StreamState.openWritable d wk) v
          = some (StreamState.closed (d ++ v.toList), wk)
        ∧ d <+: d ++ v.toList)
    ∧ (∀ (i : Nat) (s : StreamState T) (w : Waker),
      dataOf s <+: dataOf (pollNext i s w).2.2)
    ∧ (∀ (d : List T) (i : Nat) (w : Waker),
      (pollNext i (StreamState.closed d) w).2.2 = StreamState.closed d)
    ∧ (∀ (d : List T) (v : T), StreamState.push (StreamState.closed d) v = none)
    ∧ (∀ (d : List T) (v : Option T), StreamState.close (StreamState.closed d) v = none) := by
  refine ⟨fun d wk v => ⟨rfl, List.prefix_append d [v]⟩,
    fun d wk v => ⟨rfl, List.prefix_append d v.toList⟩,
    fun i s w => ?_, fun d i w => rfl, fun d v => rfl, fun d v => rfl⟩
  cases s with
  | openWritable d wk =>
      cases hg : d[i]? <;> simp [pollNext, hg, dataOf]
  | openStream src d =>
      cases hg : d[i]? with
      | some v => simp [pollNext, hg, dataOf]
      | none =>
          cases src with
          | nil => simp [pollNext, hg, dataOf, pullSource]
          | cons p rest =>
              cases p <;> simp [pollNext, hg, dataOf, pullSource, List.prefix_append]
  | closed d => simp [pollNext, dataOf]

end Turbo
